import Mathlib

/-!
Verification of the OpsForge operations-assistant backend.

This file gives a shallow embedding of the parts of the backend that carry the
audited behaviour: the relational data model (`backend/database/models.py`),
the clock / task / report tools (`backend/tools/`), the agent execution and
audit pipeline (`backend/agents/base_agent.py`, `backend/agents/agent_manager.py`)
and the action-override endpoint (`backend/api/routers/agents.py`).

Modelling conventions:
* timestamps are UTC seconds (an `Int`); `datetime.utcnow()` becomes an explicit
  `now` argument threaded through each operation, at second granularity;
* the relational store is an explicit `AppDB` value; a committed SQLAlchemy
  session becomes a returned updated `AppDB`, and a rolled-back transaction
  returns the store unchanged;
* Python floats are modelled as rationals; `round(x, 2)` becomes `round2`,
  rounding half to even as Python does;
* the language-model call inside an agent is an oracle `String → RunOutcome`
  supplied as an argument: the claims under study hold for every outcome;
* Python truthiness tests (`if context:`, `if record.total_hours:`, ...) are
  modelled by explicit `truthy*` helpers.
-/

namespace OpsForge

/-- Two-digit zero padding, as CPython strftime emits for `%M`, `%I`, `%m`, `%d`. -/
def pad2 (n : Nat) : String :=
  if n < 10 then "0" ++ toString n else toString n

/-- Four-digit zero padding for `%Y` and `str(datetime)` years. -/
def pad4 (n : Nat) : String :=
  if n < 10 then "000" ++ toString n
  else if n < 100 then "00" ++ toString n
  else if n < 1000 then "0" ++ toString n
  else toString n

/-- Days since the Unix epoch of a civil date (proleptic Gregorian calendar). -/
def daysFromCivil (y : Int) (m d : Nat) : Int :=
  let y' : Int := if m ≤ 2 then y - 1 else y
  let era : Int := Int.fdiv y' 400
  let yoe : Int := y' - era * 400
  let mp : Int := (m + 9) % 12
  let doy : Int := Int.fdiv (153 * mp + 2) 5 + d - 1
  let doe : Int := yoe * 365 + Int.fdiv yoe 4 - Int.fdiv yoe 100 + doy
  era * 146097 + doe - 719468

/-- Civil date (year, month, day) of a count of days since the Unix epoch. -/
def civilFromDays (z0 : Int) : Int × Nat × Nat :=
  let z := z0 + 719468
  let era : Int := Int.fdiv z 146097
  let doe : Int := z - era * 146097
  let yoe : Int := Int.fdiv (doe - Int.fdiv doe 1460 + Int.fdiv doe 36524 - Int.fdiv doe 146096) 365
  let y : Int := yoe + era * 400
  let doy : Int := doe - (365 * yoe + Int.fdiv yoe 4 - Int.fdiv yoe 100)
  let mp : Int := Int.fdiv (5 * doy + 2) 153
  let d : Int := doy - Int.fdiv (153 * mp + 2) 5 + 1
  let m : Int := if mp < 10 then mp + 3 else mp - 9
  (if m ≤ 2 then y + 1 else y, m.toNat, d.toNat)

/-- Seconds-of-day of a UTC timestamp. -/
def secOfDay (t : Int) : Nat := (Int.emod t 86400).toNat

/-- UTC hour of a timestamp (`datetime.hour`). -/
def utcHour (t : Int) : Nat := secOfDay t / 3600

/-- UTC minute of a timestamp (`datetime.minute`). -/
def utcMinute (t : Int) : Nat := secOfDay t % 3600 / 60

/-- UTC second of a timestamp (`datetime.second`). -/
def utcSecond (t : Int) : Nat := secOfDay t % 60

/-- CPython `str(datetime)` for a whole-second UTC timestamp:
`YYYY-MM-DD HH:MM:SS` (the microsecond part is zero in this model and is
therefore not printed, as CPython omits it when zero). -/
def pyDatetimeStr (t : Int) : String :=
  let c := civilFromDays (Int.fdiv t 86400)
  pad4 c.1.toNat ++ "-" ++ pad2 c.2.1 ++ "-" ++ pad2 c.2.2 ++ " " ++
    pad2 (utcHour t) ++ ":" ++ pad2 (utcMinute t) ++ ":" ++ pad2 (utcSecond t)

/-- CPython `datetime.strftime("%I:%M %p")`: 12-hour clock with AM/PM. -/
def strftimeIMp (t : Int) : String :=
  let h24 := utcHour t
  let h12 := if h24 % 12 = 0 then 12 else h24 % 12
  pad2 h12 ++ ":" ++ pad2 (utcMinute t) ++ " " ++ (if h24 < 12 then "AM" else "PM")

/-- CPython `datetime.strftime("%Y-%m-%d")`. -/
def strftimeYmd (t : Int) : String :=
  let c := civilFromDays (Int.fdiv t 86400)
  pad4 c.1.toNat ++ "-" ++ pad2 c.2.1 ++ "-" ++ pad2 c.2.2

/-- Round half to even to the nearest integer, as CPython `round` does on the
exact value of its argument. -/
def roundHalfEven (x : ℚ) : ℤ :=
  let f := ⌊x⌋
  if x - f < 1/2 then f
  else if (1 : ℚ)/2 < x - f then f + 1
  else if f % 2 = 0 then f else f + 1

/-- CPython `round(x, 2)`. -/
def round2 (x : ℚ) : ℚ := (roundHalfEven (100 * x) : ℚ) / 100

/-- Python truthiness of an optional numeric id (`if task.assignee_id:`):
false for `None` and for id `0`. -/
def truthyOptId : Option Nat → Bool
  | none => false
  | some n => n != 0

/-- Python truthiness of an optional float column (`if record.total_hours:`):
false for `None` and for `0.0`. -/
def truthyOptQ : Option ℚ → Bool
  | none => false
  | some q => q != 0

/-- Python truthiness of an optional string (`if department:`). -/
def truthyOptStr : Option String → Bool
  | none => false
  | some s => s != ""

/-- Python `"sep".join`. -/
def joinSep (sep : String) : List String → String
  | [] => ""
  | [x] => x
  | x :: xs => x ++ sep ++ joinSep sep xs

/-- ASCII lower-casing of one character (`str.lower`, restricted to ASCII,
which is all these tools ever feed it). -/
def charLower (c : Char) : Char :=
  if 65 ≤ c.toNat ∧ c.toNat ≤ 90 then Char.ofNat (c.toNat + 32) else c

/-- ASCII `str.lower`. -/
def lowerStr (s : String) : String := ⟨s.data.map charLower⟩

/-- The string `pat` occurs as a contiguous substring of `s`. -/
def strContains (s pat : String) : Prop := pat.data <:+: s.data

instance (s pat : String) : Decidable (strContains s pat) :=
  inferInstanceAs (Decidable (pat.data <:+: s.data))

/-- The string `s` begins with `pat`. -/
def strStarts (s pat : String) : Prop := pat.data <+: s.data

instance (s pat : String) : Decidable (strStarts s pat) :=
  inferInstanceAs (Decidable (pat.data <+: s.data))

/-- SQL `ILIKE %term%`: case-insensitive containment. -/
def ilike (field term : String) : Bool :=
  decide (strContains (lowerStr field) (lowerStr term))

/-- Python `str.strip()` restricted to ASCII whitespace. -/
def stripStr (s : String) : String :=
  ⟨(s.data.dropWhile Char.isWhitespace).reverse.dropWhile Char.isWhitespace |>.reverse⟩

/-- CPython `repr` of a float that is an exact multiple of 1/100 — the only
values these tools print, being results of `round(x, 2)`. -/
def pyFloatRepr (q : ℚ) : String :=
  let sign := if q < 0 then "-" else ""
  let c := (100 * |q|).num.toNat
  let ip := c / 100
  let fr := c % 100
  if fr = 0 then sign ++ toString ip ++ ".0"
  else if fr % 10 = 0 then sign ++ toString ip ++ "." ++ toString (fr / 10)
  else sign ++ toString ip ++ "." ++ (if fr < 10 then "0" else "") ++ toString fr

/-- Next autoincrement primary key: one more than the largest id in use. -/
def nextId (ids : List Nat) : Nat := ids.foldl max 0 + 1

/-- Insertion into a sorted list (used for the ORDER BY of the search tool). -/
def insertBy {α : Type} (le : α → α → Bool) (x : α) : List α → List α
  | [] => [x]
  | y :: ys => if le x y then x :: y :: ys else y :: insertBy le x ys

/-- Insertion sort (used for the ORDER BY of the search tool). -/
def sortBy {α : Type} (le : α → α → Bool) : List α → List α
  | [] => []
  | x :: xs => insertBy le x (sortBy le xs)

/-- `UserRole` enum of `backend/database/models.py`. -/
inductive UserRole where
  | admin
  | manager
  | employee
  deriving DecidableEq, Repr

/-- `AttendanceStatus` enum of `backend/database/models.py` (`breakTime` stands
for the member spelled `BREAK = "break"`, `break` being reserved in Lean). -/
inductive AttendanceStatus where
  | clockedIn
  | clockedOut
  | breakTime
  | lunch
  deriving DecidableEq, Repr

/-- `TaskStatus` enum of `backend/database/models.py`. -/
inductive TaskStatus where
  | todo
  | inProgress
  | review
  | completed
  | cancelled
  deriving DecidableEq, Repr

/-- The wire value of a `TaskStatus` member. -/
def statusValue : TaskStatus → String
  | .todo => "todo"
  | .inProgress => "in_progress"
  | .review => "review"
  | .completed => "completed"
  | .cancelled => "cancelled"

/-- `TaskStatus(s)` on an already lower-cased string: `none` models the
`ValueError` branch. -/
def parseTaskStatus (s : String) : Option TaskStatus :=
  if s == "todo" then some .todo
  else if s == "in_progress" then some .inProgress
  else if s == "review" then some .review
  else if s == "completed" then some .completed
  else if s == "cancelled" then some .cancelled
  else none

/-- `TaskPriority` enum of `backend/database/models.py`. -/
inductive TaskPriority where
  | low
  | medium
  | high
  | urgent
  deriving DecidableEq, Repr

/-- The wire value of a `TaskPriority` member. -/
def priorityValue : TaskPriority → String
  | .low => "low"
  | .medium => "medium"
  | .high => "high"
  | .urgent => "urgent"

/-- `TaskPriority(s)` on an already lower-cased string. -/
def parseTaskPriority (s : String) : Option TaskPriority :=
  if s == "low" then some .low
  else if s == "medium" then some .medium
  else if s == "high" then some .high
  else if s == "urgent" then some .urgent
  else none

/-- `users` table (`User` model). -/
structure User where
  id : Nat
  email : String
  username : String
  fullName : String
  hashedPassword : String
  role : UserRole := .employee
  department : Option String := none
  isActive : Bool := true
  createdAt : Int := 0
  updatedAt : Int := 0
  deriving DecidableEq, Repr

/-- `clock_records` table (`ClockRecord` model); `location` keeps the raw JSON
blob as an opaque string. -/
structure ClockRecord where
  id : Nat
  userId : Nat
  clockIn : Int
  clockOut : Option Int := none
  status : AttendanceStatus := .clockedIn
  location : Option String := none
  notes : Option String := none
  totalHours : Option ℚ := none
  date : Int := 0
  deriving DecidableEq, Repr

/-- `tasks` table (`Task` model). Note: there is no `clock_in` column — the
model ends at `completed_at` plus the two relationships. -/
structure Task where
  id : Nat
  title : String
  description : String
  assigneeId : Option Nat := none
  createdById : Nat
  dueDate : Option Int := none
  priority : TaskPriority := .medium
  status : TaskStatus := .todo
  estimatedHours : Option ℚ := none
  actualHours : Option ℚ := none
  tags : Option (List String) := none
  createdAt : Int := 0
  updatedAt : Int := 0
  completedAt : Option Int := none
  deriving DecidableEq, Repr

/-- `task_comments` table (`TaskComment` model). -/
structure TaskComment where
  id : Nat
  taskId : Nat
  userId : Nat
  comment : String
  createdAt : Int := 0
  deriving DecidableEq, Repr

/-- Per-user entry of the `user_data` aggregation dict built by
`generate_attendance_report_tool` (its `records` sub-list is not persisted
into the summary figures and is omitted). -/
structure UserAttendance where
  name : String
  department : Option String
  daysWorked : Nat
  totalHours : ℚ
  lateArrivals : Nat
  deriving DecidableEq, Repr

/-- The JSON `content` column written by `generate_attendance_report_tool`:
`{"summary": user_data, "total_hours": ..., "employee_count": ...}`. The other
report tools are outside the scope of this development. -/
structure AttendanceContent where
  summary : List (Nat × UserAttendance)
  totalHours : ℚ
  employeeCount : Nat
  deriving DecidableEq, Repr

/-- `reports` table (`Report` model), specialised to the attendance report
tool, the only writer modelled here. -/
structure Report where
  id : Nat
  title : String
  type : String
  content : AttendanceContent
  generatedById : Nat
  dateFrom : Int
  dateTo : Int
  createdAt : Int := 0
  deriving DecidableEq, Repr

/-- The `input_data` JSON of an agent action:
`{"input": input_text, "context": context}`. -/
structure ActionInput where
  input : String
  context : Option (List (String × String))
  deriving DecidableEq, Repr

/-- The result envelope built by `BaseAgent.execute` (§4.2 step 4), which is
also stored verbatim as the `output_data` JSON of the audit row. -/
inductive Envelope where
  | ok (output : String) (agent : String) (executionTimeMs : Nat) (intermediateSteps : List String)
  | err (error : String) (agent : String) (executionTimeMs : Nat)
  deriving DecidableEq, Repr

/-- `agent_actions` table (`AgentAction` model) — the ActionLog store. -/
structure AgentAction where
  id : Nat
  agentName : String
  actionType : String
  inputData : ActionInput
  outputData : Envelope
  success : Bool := true
  errorMessage : Option String := none
  userId : Option Nat := none
  executionTimeMs : Nat := 0
  timestamp : Int := 0
  overridden : Bool := false
  overriddenById : Option Nat := none
  overrideReason : Option String := none
  deriving DecidableEq, Repr

/-- The relational store: one field per table of `backend/database/models.py`
touched by the modelled operations (`company_documents` is only read by the
retrieval subsystem, which is external, and is omitted). -/
structure AppDB where
  users : List User := []
  clockRecords : List ClockRecord := []
  tasks : List Task := []
  taskComments : List TaskComment := []
  reports : List Report := []
  agentActions : List AgentAction := []
  deriving DecidableEq, Repr

/-- The first clock record of `user_id` with `clock_out IS NULL` — the query
shared by `clock_in_tool` and `clock_out_tool` in `backend/tools/clock_tools.py`. -/
def openClockRecord (db : AppDB) (userId : Nat) : Option ClockRecord :=
  db.clockRecords.find? (fun r => r.userId == userId && r.clockOut == none)

/-- `clock_in_tool` from `backend/tools/clock_tools.py`: reject when the user is
unknown or already has an open record, otherwise insert one open record stamped
with the current time and commit. -/
def clock_in_tool (db : AppDB) (now : Int) (userId : Nat)
    (location : Option String) (notes : Option String) : String × AppDB :=
  match db.users.find? (fun u => u.id == userId) with
  | none => ("Error: User with ID " ++ toString userId ++ " not found", db)
  | some user =>
    match openClockRecord db userId with
    | some existing =>
        ("Error: " ++ user.fullName ++ " is already clocked in since " ++
           pyDatetimeStr existing.clockIn, db)
    | none =>
        let newRecord : ClockRecord :=
          { id := nextId (db.clockRecords.map (fun r => r.id)), userId := userId,
            clockIn := now, clockOut := none, status := .clockedIn,
            location := location, notes := notes, totalHours := none, date := now }
        ("Successfully clocked in " ++ user.fullName ++ " at " ++ strftimeIMp now,
         { db with clockRecords := db.clockRecords ++ [newRecord] })

/-- The mutation `clock_out_tool` applies to the open record it found: stamp the
clock-out time, switch the status, store `round((out - in)/3600, 2)` as the
worked hours, and append the optional note (`f"...".strip()`). -/
def closeClockRecord (now : Int) (notes : Option String) (r : ClockRecord) : ClockRecord :=
  let hoursWorked : ℚ := round2 (((now - r.clockIn : Int) : ℚ) / 3600)
  { r with clockOut := some now, status := .clockedOut, totalHours := some hoursWorked,
           notes := match notes with
             | some n =>
                 if n != "" then
                   some (stripStr ((r.notes.getD "") ++ "\nClock out: " ++ n))
                 else r.notes
             | none => r.notes }

/-- `clock_out_tool` from `backend/tools/clock_tools.py`: reject when the user
is unknown or has no open record, otherwise close the open record and commit. -/
def clock_out_tool (db : AppDB) (now : Int) (userId : Nat)
    (notes : Option String) : String × AppDB :=
  match db.users.find? (fun u => u.id == userId) with
  | none => ("Error: User with ID " ++ toString userId ++ " not found", db)
  | some user =>
    match openClockRecord db userId with
    | none => ("Error: " ++ user.fullName ++ " is not currently clocked in", db)
    | some r =>
        let r' := closeClockRecord now notes r
        ("Successfully clocked out " ++ user.fullName ++ " at " ++ strftimeIMp now ++
           ". Total hours worked: " ++ pyFloatRepr (r'.totalHours.getD 0),
         { db with clockRecords := db.clockRecords.map (fun x =>
             if x.id == r.id then closeClockRecord now notes x else x) })

/-- The workload query of `assign_task_tool`: tasks of the assignee whose
status is in `[TaskStatus.TODO, TaskStatus.IN_PROGRESS]`. -/
def activeTaskCount (db : AppDB) (assigneeId : Nat) : Nat :=
  (db.tasks.filter (fun t => t.assigneeId == some assigneeId &&
     (t.status == TaskStatus.todo || t.status == TaskStatus.inProgress))).length

/-- The workload warning string of `assign_task_tool`. -/
def workloadWarning (name : String) (n : Nat) : String :=
  "\nWarning: " ++ name ++ " already has " ++ toString n ++ " active tasks!"

/-- The response of `assign_task_tool` before the warning is appended:
`Task <title> assigned to <assignee>` plus the previous assignee when the task
already had a (truthy) one. -/
def assignResponseCore (db : AppDB) (task : Task) (assignee : User) : String :=
  let base := "Task \x27" ++ task.title ++ "\x27 assigned to " ++ assignee.fullName
  if truthyOptId task.assigneeId then
    let oldName := match db.users.find? (fun u => some u.id == task.assigneeId) with
      | some u => u.fullName
      | none => "Unknown"
    base ++ " (previously assigned to " ++ oldName ++ ")"
  else base

/-- The mutation `assign_task_tool` applies to the found task: set the
assignee, refresh `updated_at`, and move a TODO task to IN_PROGRESS. -/
def assignUpdate (now : Int) (assigneeId : Nat) (t : Task) : Task :=
  { t with assigneeId := some assigneeId, updatedAt := now,
           status := if t.status == TaskStatus.todo then TaskStatus.inProgress else t.status }

/-- `assign_task_tool` from `backend/tools/task_tools.py`. -/
def assign_task_tool (db : AppDB) (now : Int) (taskId assigneeId : Nat) : String × AppDB :=
  match db.tasks.find? (fun t => t.id == taskId) with
  | none => ("Error: Task with ID " ++ toString taskId ++ " not found", db)
  | some task =>
    match db.users.find? (fun u => u.id == assigneeId) with
    | none => ("Error: User with ID " ++ toString assigneeId ++ " not found", db)
    | some assignee =>
        let n := activeTaskCount db assigneeId
        let warning := if 10 ≤ n then workloadWarning assignee.fullName n else ""
        (assignResponseCore db task assignee ++ warning,
         { db with tasks := db.tasks.map (fun t =>
             if t.id == taskId then assignUpdate now assigneeId t else t) })

/-- `update_task_status_tool` from `backend/tools/task_tools.py`. When the new
status is `completed` the source runs `if task.clock_in:`; the `Task` model has
no `clock_in` attribute, so CPython raises
`AttributeError("\x27Task\x27 object has no attribute \x27clock_in\x27")`, the
handler rolls the session back and returns the error string — nothing is
persisted on that path. -/
def update_task_status_tool (db : AppDB) (now : Int) (taskId : Nat)
    (newStatus : String) (comment : Option String) : String × AppDB :=
  match db.tasks.find? (fun t => t.id == taskId) with
  | none => ("Error: Task with ID " ++ toString taskId ++ " not found", db)
  | some task =>
    match parseTaskStatus (lowerStr newStatus) with
    | none => ("Error: Invalid status. Use: todo, in_progress, review, completed, or cancelled", db)
    | some st =>
      if st == TaskStatus.completed then
        ("Error updating task status: \x27Task\x27 object has no attribute \x27clock_in\x27", db)
      else
        let task' := { task with status := st, updatedAt := now }
        let comments' :=
          match comment with
          | some c =>
              if c != "" && truthyOptId task.assigneeId then
                db.taskComments ++
                  [{ id := nextId (db.taskComments.map (fun x => x.id)), taskId := taskId,
                     userId := task.assigneeId.getD 0,
                     comment := "Status changed from " ++ statusValue task.status ++ " to " ++
                       statusValue st ++ ": " ++ c,
                     createdAt := now }]
              else db.taskComments
          | none => db.taskComments
        let resp := "Task \x27" ++ task.title ++ "\x27 status updated from " ++
          statusValue task.status ++ " to " ++ statusValue st
        let resp :=
          match task.assigneeId.bind (fun a => db.users.find? (fun u => u.id == a)) with
          | some u => resp ++ "\nAssigned to: " ++ u.fullName
          | none => resp
        (resp,
         { db with tasks := db.tasks.map (fun t => if t.id == taskId then task' else t),
                   taskComments := comments' })

/-- The evaluation of `db.or_` inside `search_tasks_tool`: the SQLAlchemy
`Session` object has no attribute `or_` (the module imports only `and_`), so
the attribute access raises `AttributeError` before any filter is applied. -/
def sessionOrAttr : Except String ((Task → Bool) → (Task → Bool) → (Task → Bool)) :=
  Except.error "\x27Session\x27 object has no attribute \x27or_\x27"

/-- One formatted entry of the search-result listing. -/
def searchResultLine (db : AppDB) (t : Task) : String :=
  let line := "[" ++ toString t.id ++ "] " ++ t.title ++ "\n" ++
    "   Status: " ++ statusValue t.status ++ " | Priority: " ++ priorityValue t.priority ++ "\n"
  let line :=
    match t.assigneeId.bind (fun a => db.users.find? (fun u => u.id == a)) with
    | some u => line ++ "   Assigned to: " ++ u.fullName ++ "\n"
    | none => line
  let line :=
    match t.dueDate with
    | some d => line ++ "   Due: " ++ strftimeYmd d ++ "\n"
    | none => line
  line ++ "\n"

/-- The `try:` body of `search_tasks_tool`: build the query, apply the four
filters, order by `created_at` descending, truncate to 20 and format. The very
first filter evaluates `db.or_`, so the whole body stops at `sessionOrAttr`. -/
def searchTasksBody (db : AppDB) (searchTerm : String)
    (statusFilter priorityFilter : Option String) (assignedOnly : Bool) :
    Except String String := do
  let orF ← sessionOrAttr
  let base := db.tasks.filter
    (orF (fun t => ilike t.title searchTerm) (fun t => ilike t.description searchTerm))
  let afterStatus :=
    match statusFilter with
    | some sf =>
        match parseTaskStatus (lowerStr sf) with
        | some st => base.filter (fun t => t.status == st)
        | none => base
    | none => base
  let afterPriority :=
    match priorityFilter with
    | some pf =>
        match parseTaskPriority (lowerStr pf) with
        | some p => afterStatus.filter (fun t => t.priority == p)
        | none => afterStatus
    | none => afterStatus
  let afterAssigned :=
    if assignedOnly then afterPriority.filter (fun t => t.assigneeId != none)
    else afterPriority
  let results := (sortBy (fun a b => b.createdAt ≤ a.createdAt) afterAssigned).take 20
  if results.isEmpty then
    pure ("No tasks found matching \x27" ++ searchTerm ++ "\x27")
  else
    pure (("Found " ++ toString results.length ++ " tasks matching \x27" ++ searchTerm ++
      "\x27:\n\n") ++ (results.map (searchResultLine db)).foldl (fun a b => a ++ b) "")

/-- `search_tasks_tool` from `backend/tools/task_tools.py`: the body with its
`except Exception` boundary, which renders every raised exception as
`"Error searching tasks: " + str(e)`. -/
def search_tasks_tool (db : AppDB) (searchTerm : String)
    (statusFilter priorityFilter : Option String) (assignedOnly : Bool) : String :=
  match searchTasksBody db searchTerm statusFilter priorityFilter assignedOnly with
  | .ok s => s
  | .error e => "Error searching tasks: " ++ e

/-- Number of days in a month of the proleptic Gregorian calendar. -/
def daysInMonth (y : Int) (m : Nat) : Nat :=
  if m == 2 then
    if Int.emod y 4 == 0 && (Int.emod y 100 != 0 || Int.emod y 400 == 0) then 29 else 28
  else if m == 4 || m == 6 || m == 9 || m == 11 then 30
  else 31

/-- Digit sequence to number; `none` when empty or containing a non-digit. -/
def digitsToNat? : List Char → Option Nat
  | [] => none
  | cs =>
    cs.foldl (fun acc c =>
      match acc with
      | none => none
      | some n =>
          let v := c.toNat
          if 48 ≤ v ∧ v ≤ 57 then some (n * 10 + (v - 48)) else none)
      (some 0)

/-- The `%d` field of CPython strptime: one or two digits, or a space followed
by a single digit (the `TimeRE` pattern is `3[01]|[12]\d|0[1-9]|[1-9]| [1-9]`;
the two-digit values and the space-padded zero it excludes are equally
rejected by the range check in `parseDate`, with the same `none` outcome). -/
def parseDayField? : List Char → Option Nat
  | [c] => digitsToNat? [c]
  | [c1, c2] => if c1 = Char.ofNat 32 then digitsToNat? [c2] else digitsToNat? [c1, c2]
  | _ => none

/-- `datetime.strptime(s, "%Y-%m-%d")`, returning the timestamp of midnight of
the parsed date; `none` models the `ValueError`. As in CPython, `%Y` matches
exactly four digits, `%m` one or two, `%d` one or two or a space-padded single
digit, and the `datetime` constructor then enforces year ≥ 1 (`MINYEAR`) and
the calendar bounds on the day. -/
def parseDate (s : String) : Option Int :=
  match s.data.splitOn (Char.ofNat 45) with
  | [ys, ms, ds] => do
      let y ← digitsToNat? ys
      let m ← digitsToNat? ms
      let d ← parseDayField? ds
      if ys.length = 4 ∧ ms.length ≤ 2 ∧
         1 ≤ y ∧ 1 ≤ m ∧ m ≤ 12 ∧ 1 ≤ d ∧ d ≤ daysInMonth y m then
        some (86400 * daysFromCivil y m d)
      else none
  | _ => none

/-- The `ValueError` text CPython strptime raises on a malformed date (used
only on the error path of the report tool). -/
def strptimeError (s : String) : String :=
  "time data \x27" ++ s ++ "\x27 does not match format \x27%Y-%m-%d\x27"

/-- The date-range query of `generate_attendance_report_tool`:
`clock_in >= start AND clock_in <= end + timedelta(days=1)`. -/
def attendanceMatched (db : AppDB) (start finish : Int) : List ClockRecord :=
  db.clockRecords.filter (fun r =>
    decide (start ≤ r.clockIn) && decide (r.clockIn ≤ finish + 86400))

/-- The contribution of one record to the running `total_hours` sums: its
`total_hours` when truthy (`if record.total_hours:`), else nothing. -/
def attendanceHoursVal (r : ClockRecord) : ℚ :=
  if truthyOptQ r.totalHours then r.totalHours.getD 0 else 0

/-- The late-arrival test of the report loop:
`clock_in.hour > 9 or (clock_in.hour == 9 and clock_in.minute > 15)`. -/
def isLateArrival (t : Int) : Bool :=
  9 < utcHour t || (utcHour t == 9 && 15 < utcMinute t)

/-- Account one clock record to the per-user aggregation dict, preserving the
dict's first-insertion order. -/
def accountRecord (userData : List (Nat × UserAttendance)) (u : User)
    (r : ClockRecord) : List (Nat × UserAttendance) :=
  let hv := attendanceHoursVal r
  let lateBit := if isLateArrival r.clockIn then 1 else 0
  match userData.lookup u.id with
  | some entry =>
      let entry' : UserAttendance :=
        { entry with daysWorked := entry.daysWorked + 1,
                     totalHours := entry.totalHours + hv,
                     lateArrivals := entry.lateArrivals + lateBit }
      userData.map (fun kv => if kv.1 == u.id then (kv.1, entry') else kv)
  | none =>
      userData ++ [(u.id,
        { name := u.fullName, department := u.department, daysWorked := 1,
          totalHours := hv, lateArrivals := lateBit })]

/-- The aggregation loop of `generate_attendance_report_tool`: thread the
`user_data` dict and the `total_hours_all` accumulator over the matched
records. A record whose `user` relationship resolves to no row makes the loop
raise (`AttributeError` on `None`), modelled as the `error` case. -/
def buildAttendance (users : List User) :
    List ClockRecord → List (Nat × UserAttendance) → ℚ →
    Except String (List (Nat × UserAttendance) × ℚ)
  | [], userData, total => .ok (userData, total)
  | r :: rs, userData, total =>
      match users.find? (fun u => u.id == r.userId) with
      | none => .error "\x27NoneType\x27 object has no attribute \x27id\x27"
      | some u => buildAttendance users rs (accountRecord userData u r)
          (total + attendanceHoursVal r)

/-- One per-user section of the formatted attendance report. -/
def attendanceUserSection (kv : Nat × UserAttendance) : String :=
  let d := kv.2
  let avg : ℚ := if d.daysWorked ≠ 0 then round2 (d.totalHours / d.daysWorked) else 0
  "## " ++ d.name ++ " (" ++ (match d.department with
      | some s => s
      | none => "None") ++ ")\n" ++
  "- Days Worked: " ++ toString d.daysWorked ++ "\n" ++
  "- Total Hours: " ++ pyFloatRepr (round2 d.totalHours) ++ "\n" ++
  "- Average Hours/Day: " ++ pyFloatRepr avg ++ "\n" ++
  "- Late Arrivals: " ++ toString d.lateArrivals ++ "\n\n"

/-- The formatted text document returned by `generate_attendance_report_tool`. -/
def attendanceReportText (startDate endDate : String)
    (userData : List (Nat × UserAttendance)) (totalHoursAll : ℚ) : String :=
  "# Attendance Report\n" ++
  "Period: " ++ startDate ++ " to " ++ endDate ++ "\n" ++
  "Total Employees: " ++ toString userData.length ++ "\n" ++
  "Total Hours Worked: " ++ pyFloatRepr (round2 totalHoursAll) ++ "\n\n" ++
  (userData.map attendanceUserSection).foldl (fun a b => a ++ b) ""

/-- The `Report` row `generate_attendance_report_tool` persists for the given
bounds, aggregation summary and total. -/
def mkAttendanceReport (db : AppDB) (now : Int) (startDate endDate : String)
    (s e : Int) (data : List (Nat × UserAttendance)) (total : ℚ) : Report :=
  { id := nextId (db.reports.map (fun r => r.id)),
    title := "Attendance Report " ++ startDate ++ " to " ++ endDate,
    type := "attendance",
    content := { summary := data, totalHours := total, employeeCount := data.length },
    generatedById := 1, dateFrom := s, dateTo := e, createdAt := now }

/-- `generate_attendance_report_tool` from `backend/tools/report_tools.py`:
parse the bounds, run the date-range query (plus the optional user and
department filters), return early when nothing matched, aggregate, persist one
`Report` row and return the formatted document. -/
def generate_attendance_report_tool (db : AppDB) (now : Int)
    (startDate endDate : String) (userIdF : Option Nat) (departmentF : Option String) :
    String × AppDB :=
  match parseDate startDate with
  | none => ("Error generating attendance report: " ++ strptimeError startDate, db)
  | some start =>
    match parseDate endDate with
    | none => ("Error generating attendance report: " ++ strptimeError endDate, db)
    | some finish =>
      let m0 := attendanceMatched db start finish
      let m1 := if truthyOptId userIdF then
          m0.filter (fun r => some r.userId == userIdF) else m0
      let records := if truthyOptStr departmentF then
          m1.filter (fun r =>
            match db.users.find? (fun u => u.id == r.userId) with
            | some u => u.department == departmentF
            | none => false)
        else m1
      if records.isEmpty then
        ("No attendance records found for the specified period", db)
      else
        match buildAttendance db.users records [] 0 with
        | .error e => ("Error generating attendance report: " ++ e, db)
        | .ok (userData, totalHoursAll) =>
            (attendanceReportText startDate endDate userData totalHoursAll,
             { db with reports := db.reports ++
                 [mkAttendanceReport db now startDate endDate start finish
                   userData totalHoursAll] })

/-- The outcome of one run of the LangChain executor loop inside
`BaseAgent.execute`: either a final answer with the intermediate tool-call
trace, or a raised exception with its message. The loop itself (LLM calls,
tool dispatch, the iteration cap of 5) is external to this model; the theorems
below hold for every outcome. -/
inductive RunOutcome where
  | ok (output : String) (intermediateSteps : List String)
  | exn (msg : String)

/-- The context merge of `BaseAgent.execute` step 1: a truthy context dict is
serialised to `k: v` lines and prefixed to the raw input. -/
def mkFullInput (inputText : String) (context : Option (List (String × String))) : String :=
  match context with
  | some ctx =>
      if ctx.isEmpty then inputText
      else "Context:\n" ++ joinSep "\n" (ctx.map (fun kv => kv.1 ++ ": " ++ kv.2)) ++
        "\n\nUser Request: " ++ inputText
  | none => inputText

/-- `BaseAgent.execute` from `backend/agents/base_agent.py`: merge the context,
run the executor, build the success or failure envelope, and persist one
`AgentAction` row when `save_to_db` and a session are given (`_save_action`;
its commit is taken to succeed — a persistence failure is caught and logged
there and is outside this model). -/
def baseAgentExecute (agentName : String) (run : String → RunOutcome)
    (inputText : String) (context : Option (List (String × String)))
    (userId : Option Nat) (saveToDb : Bool) (now : Int) (ms : Nat)
    (db : AppDB) : Envelope × AppDB :=
  match run (mkFullInput inputText context) with
  | .ok output steps =>
      let res := Envelope.ok output agentName ms steps
      (res,
       if saveToDb then
         { db with agentActions := db.agentActions ++
             [{ id := nextId (db.agentActions.map (fun a => a.id)),
                agentName := agentName, actionType := "execute",
                inputData := { input := inputText, context := context },
                outputData := res, success := true, errorMessage := none,
                userId := userId, executionTimeMs := ms, timestamp := now }] }
       else db)
  | .exn msg =>
      let res := Envelope.err msg agentName ms
      (res,
       if saveToDb then
         { db with agentActions := db.agentActions ++
             [{ id := nextId (db.agentActions.map (fun a => a.id)),
                agentName := agentName, actionType := "execute",
                inputData := { input := inputText, context := context },
                outputData := res, success := false, errorMessage := some msg,
                userId := userId, executionTimeMs := ms, timestamp := now }] }
       else db)

/-- One initialised agent of the Agent Manager registry: its display name and
its executor, the latter abstracted as an oracle. -/
structure AgentInst where
  name : String
  description : String
  run : String → RunOutcome

/-- The Agent Manager: the `agents` registry dict (an already-initialised
manager; `initialize()` only constructs agents and the retriever and never
touches the relational store). -/
structure AgentManager where
  agents : List (String × AgentInst)

/-- The input-text bridge of `execute_action`: the raw `query` parameter for
`process_natural_language`, else `"Action: ..."` plus one `key: value` line
per parameter in insertion order. -/
def buildInputText (action : String) (parameters : List (String × String)) : String :=
  if action == "process_natural_language" then
    (parameters.lookup "query").getD ""
  else
    parameters.foldl (fun acc kv => acc ++ kv.1 ++ ": " ++ kv.2 ++ "\n")
      ("Action: " ++ action ++ "\n")

/-- The value returned by `AgentManager.execute_action`: either the inline
`success=False` dict for an unknown agent type (which carries no
`execution_time_ms`), or the envelope produced by the agent. -/
inductive ManagerResult where
  | unknownAgent (error : String) (agent : String)
  | agentResult (envelope : Envelope)
  deriving DecidableEq, Repr

/-- The `success` field of a `ManagerResult` dict. -/
def ManagerResult.success : ManagerResult → Bool
  | .unknownAgent _ _ => false
  | .agentResult (.ok _ _ _ _) => true
  | .agentResult (.err _ _ _) => false

/-- `AgentManager.execute_action` from `backend/agents/agent_manager.py`:
resolve the agent type, return the `success=False` dict when unknown, else
build the input text, open a session and delegate to the agent with
`save_to_db=True` (the `finally: db.close()` scope is implicit in the explicit
state passing). -/
def execute_action (m : AgentManager) (agentType action : String)
    (parameters : List (String × String)) (context : Option (List (String × String)))
    (userId : Option Nat) (now : Int) (ms : Nat) (db : AppDB) :
    ManagerResult × AppDB :=
  match m.agents.lookup agentType with
  | none => (ManagerResult.unknownAgent ("Unknown agent type: " ++ agentType) agentType, db)
  | some ag =>
      let r := baseAgentExecute ag.name ag.run (buildInputText action parameters)
        context userId true now ms db
      (ManagerResult.agentResult r.1, r.2)

/-- The value returned by the `override_agent_action` endpoint of
`backend/api/routers/agents.py`: the success message, or a raised
`HTTPException(status_code, detail)`. -/
inductive OverrideResult where
  | ok (message : String) (actionId : Nat)
  | httpError (status : Nat) (detail : String)
  deriving DecidableEq, Repr

/-- `override_agent_action` from `backend/api/routers/agents.py` (the body
after the manager-role dependency): 404 when the action id is unknown, 400
when the row is already overridden, else set the three override fields and
commit. The `corrective_action` payload of the request body is accepted but
never written anywhere — `AgentAction` has no column for it and the endpoint
only sets `overridden`, `overridden_by_id` and `override_reason`. -/
def override_agent_action {CA : Type} (db : AppDB) (actionId : Nat)
    (reason : String) (correctiveAction : CA) (currentUserId : Nat) :
    OverrideResult × AppDB :=
  match db.agentActions.find? (fun a => a.id == actionId) with
  | none => (OverrideResult.httpError 404 "Action not found", db)
  | some a =>
      if a.overridden then (OverrideResult.httpError 400 "Action already overridden", db)
      else
        (OverrideResult.ok "Action overridden successfully" actionId,
         { db with agentActions := db.agentActions.map (fun x =>
             if x.id == actionId then
               { x with overridden := true, overriddenById := some currentUserId,
                        overrideReason := some reason }
             else x) })

/-- The count named by the spec sentence for the workload warning, following
its words: tasks of the assignee in "non-terminal status", i.e. neither
completed nor cancelled. Compare `activeTaskCount`, which is what the code
counts. -/
def specNonTerminalCount (db : AppDB) (assigneeId : Nat) : Nat :=
  (db.tasks.filter (fun t => t.assigneeId == some assigneeId &&
     !(t.status == TaskStatus.completed || t.status == TaskStatus.cancelled))).length

/-- Fixture: an employee row. -/
def aliceUser : User :=
  { id := 1, email := "alice@example.com", username := "alice",
    fullName := "Alice Employee", hashedPassword := "h1", role := .employee,
    department := some "Engineering" }

/-- Fixture: a manager row. -/
def bobUser : User :=
  { id := 2, email := "bob@example.com", username := "bob",
    fullName := "Bob Manager", hashedPassword := "h2", role := .manager,
    department := some "Engineering" }

/-- Fixture: a store with one employee and no clock records. -/
def cleanDB : AppDB := { users := [aliceUser, bobUser] }

/-- Fixture: a store where the employee has one open clock record. -/
def openShiftDB : AppDB :=
  { users := [aliceUser, bobUser],
    clockRecords := [{ id := 1, userId := 1, clockIn := 1700000000, date := 1700000000 }] }

/-- Fixture: a task row with the given id, status and assignee. -/
def mkTask (i : Nat) (st : TaskStatus) (assignee : Option Nat) : Task :=
  { id := i, title := "Task " ++ toString i, description := "fixture task",
    assigneeId := assignee, createdById := 2, status := st }

/-- Fixture: an unassigned task plus nine TODO tasks held by the employee. -/
def nineActiveDB : AppDB :=
  { users := [aliceUser, bobUser],
    tasks := mkTask 100 .todo none :: (List.range 9).map (fun i => mkTask (i + 1) .todo (some 1)) }

/-- Fixture: an unassigned task plus ten REVIEW tasks held by the employee. -/
def tenReviewDB : AppDB :=
  { users := [aliceUser, bobUser],
    tasks := mkTask 100 .todo none :: (List.range 10).map (fun i => mkTask (i + 1) .review (some 1)) }

/-- Fixture: one in-progress task assigned to the employee. -/
def statusDB : AppDB :=
  { users := [aliceUser, bobUser], tasks := [mkTask 1 .inProgress (some 1)] }

/-- Fixture: a logged, not-yet-overridden agent action. -/
def exAction : AgentAction :=
  { id := 1, agentName := "Clock Management Agent", actionType := "execute",
    inputData := { input := "Action: clock_in\nuser_id: 1\n", context := none },
    outputData := Envelope.ok "Clocked in Alice Employee" "Clock Management Agent" 12 [],
    success := true, errorMessage := none, userId := some 1,
    executionTimeMs := 12, timestamp := 1700000000 }

/-- Fixture: a store holding one auditable agent action. -/
def auditDB : AppDB := { users := [aliceUser, bobUser], agentActions := [exAction] }

/-- Fixture: the audit row as the manager-override endpoint leaves it. -/
def exActionOverridden : AgentAction :=
  { exAction with overridden := true, overriddenById := some 2,
                  overrideReason := some "wrong tool used" }

/-- Fixture: an agent executor oracle that always answers. -/
def exRunOk : String → RunOutcome := fun _ => RunOutcome.ok "Clocked in" ["clock_in_tool"]

/-- Fixture: an initialised clock agent. -/
def exClockAgent : AgentInst :=
  { name := "Clock Management Agent",
    description := "Handles employee time tracking, clock-in/out, and attendance queries",
    run := exRunOk }

/-- Fixture: a manager whose registry holds the clock agent. -/
def exManager : AgentManager := { agents := [("clock", exClockAgent)] }

/-- Fixture: a closed, eight-hour attendance record inside January 2024. -/
def janShift : ClockRecord :=
  { id := 1, userId := 1, clockIn := 1704103200, clockOut := some 1704132000,
    status := .clockedOut, totalHours := some 8, date := 1704103200 }

/-- Fixture: a store with one closed, eight-hour attendance record inside
January 2024. -/
def reportDB : AppDB :=
  { users := [aliceUser, bobUser], clockRecords := [janShift] }

theorem strContains_append_left {a b pat : String} (h : strContains a pat) :
    strContains (a ++ b) pat := by
  obtain ⟨s, t, hst⟩ := h
  exact ⟨s, t ++ b.data, by rw [String.data_append, ← hst]; simp⟩

theorem strContains_append_right {a b pat : String} (h : strContains b pat) :
    strContains (a ++ b) pat := by
  obtain ⟨s, t, hst⟩ := h
  exact ⟨a.data ++ s, t, by rw [String.data_append, ← hst]; simp⟩

/-- C10: for every input, `search_tasks_tool` returns a string (it is total),
and because its filter construction reads `or_` off the session object — an
attribute that does not exist — every call that reaches query construction
takes the exception branch and returns the fixed string beginning
`Error searching tasks:`; it can never return a task listing. -/
theorem search_tasks_always_error_string (db : AppDB) (searchTerm : String)
    (statusFilter priorityFilter : Option String) (assignedOnly : Bool) :
    search_tasks_tool db searchTerm statusFilter priorityFilter assignedOnly
      = "Error searching tasks: \x27Session\x27 object has no attribute \x27or_\x27" ∧
    strStarts (search_tasks_tool db searchTerm statusFilter priorityFilter assignedOnly)
      "Error searching tasks:" := by
  refine ⟨rfl, ?_⟩
  show strStarts "Error searching tasks: \x27Session\x27 object has no attribute \x27or_\x27"
    "Error searching tasks:"
  decide

/-- C5: the claim reads the source as stamping a completion time (and
optionally an audit comment) when a task is moved to `completed`; the code
instead dies on `task.clock_in` — an attribute `Task` does not have — so the
exception handler rolls back and returns an error string, and nothing at all
is persisted for the transition. Evaluated here at a concrete store holding
task 1 in progress. -/
theorem update_completed_attribute_error :
    update_task_status_tool statusDB 1700000000 1 "completed" (some "done")
      = ("Error updating task status: \x27Task\x27 object has no attribute \x27clock_in\x27",
         statusDB) ∧
    (update_task_status_tool statusDB 1700000000 1 "completed" (some "done")).2.tasks.map
        (fun t => t.completedAt) = [none] := by
  decide

/-- C4 counterexample: the override endpoint discards the corrective-action
payload instead of recording it — two override calls that differ only in the
payload produce identical responses and identical stores (there is no column
the payload could have gone to), so no function of the outcome recovers the
payload, refuting "records the caller-supplied corrective-action payload". -/
theorem override_payload_not_recorded_cex :
    override_agent_action auditDB 1 "wrong tool used" (0 : Nat) 2
      = override_agent_action auditDB 1 "wrong tool used" (1 : Nat) 2 ∧
    (0 : Nat) ≠ 1 := by
  decide

/-- C2: `execute_action` with an agent type outside the registry returns the
inline `success=False` envelope and touches nothing: the store — in particular
the ActionLog table — comes back exactly as it went in, since the branch
returns before a session is even opened. -/
theorem execute_action_unknown_agent (m : AgentManager) (agentType action : String)
    (parameters : List (String × String)) (context : Option (List (String × String)))
    (userId : Option Nat) (now : Int) (ms : Nat) (db : AppDB)
    (h : m.agents.lookup agentType = none) :
    execute_action m agentType action parameters context userId now ms db
      = (ManagerResult.unknownAgent ("Unknown agent type: " ++ agentType) agentType, db) ∧
    (execute_action m agentType action parameters context userId now ms db).1.success
      = false := by
  unfold execute_action
  rw [h]
  exact ⟨rfl, rfl⟩

/-- C2 witness: a manager knowing only the clock agent, asked for a payroll
agent, answers the failure envelope and leaves the store untouched. -/
theorem execute_action_unknown_agent_inst :
    execute_action exManager "payroll" "clock_in" [] none none 1700000000 5 cleanDB
      = (ManagerResult.unknownAgent "Unknown agent type: payroll" "payroll", cleanDB) ∧
    (execute_action exManager "payroll" "clock_in" [] none none 1700000000 5 cleanDB).1.success
      = false :=
  execute_action_unknown_agent exManager "payroll" "clock_in" [] none none 1700000000 5
    cleanDB rfl

/-- C1: `execute_action` with a recognised agent type appends exactly one
ActionLog row, whatever the agent run does — final answer or raised
exception — and the row's success flag agrees with the returned envelope,
with the error text present exactly on the failure path. -/
theorem execute_action_logs_exactly_one (m : AgentManager) (agentType action : String)
    (parameters : List (String × String)) (context : Option (List (String × String)))
    (userId : Option Nat) (now : Int) (ms : Nat) (db : AppDB) (ag : AgentInst)
    (h : m.agents.lookup agentType = some ag) :
    ∃ row : AgentAction,
      (execute_action m agentType action parameters context userId now ms db).2.agentActions
        = db.agentActions ++ [row] ∧
      row.agentName = ag.name ∧
      row.actionType = "execute" ∧
      row.success
        = (execute_action m agentType action parameters context userId now ms db).1.success ∧
      (row.errorMessage = none ↔ row.success = true) := by
  simp only [execute_action, h]
  cases hrun : ag.run (mkFullInput (buildInputText action parameters) context) with
  | ok output steps =>
      refine ⟨{ id := nextId (db.agentActions.map (fun a => a.id)), agentName := ag.name,
                actionType := "execute",
                inputData := { input := buildInputText action parameters, context := context },
                outputData := Envelope.ok output ag.name ms steps, success := true,
                errorMessage := none, userId := userId, executionTimeMs := ms,
                timestamp := now }, ?_, rfl, rfl, ?_, by simp⟩
      · simp [baseAgentExecute, hrun]
      · simp [baseAgentExecute, hrun, ManagerResult.success]
  | exn msg =>
      refine ⟨{ id := nextId (db.agentActions.map (fun a => a.id)), agentName := ag.name,
                actionType := "execute",
                inputData := { input := buildInputText action parameters, context := context },
                outputData := Envelope.err msg ag.name ms, success := false,
                errorMessage := some msg, userId := userId, executionTimeMs := ms,
                timestamp := now }, ?_, rfl, rfl, ?_, by simp⟩
      · simp [baseAgentExecute, hrun]
      · simp [baseAgentExecute, hrun, ManagerResult.success]

/-- C1 witness: one call through the clock agent of the fixture manager
appends one ActionLog row to the empty audit trail. -/
theorem execute_action_logs_exactly_one_inst :
    ∃ row : AgentAction,
      (execute_action exManager "clock" "process_natural_language"
          [("query", "clock me in")] none (some 1) 1700000000 12 cleanDB).2.agentActions
        = cleanDB.agentActions ++ [row] ∧
      row.agentName = exClockAgent.name ∧
      row.actionType = "execute" ∧
      row.success
        = (execute_action exManager "clock" "process_natural_language"
            [("query", "clock me in")] none (some 1) 1700000000 12 cleanDB).1.success ∧
      (row.errorMessage = none ↔ row.success = true) :=
  execute_action_logs_exactly_one exManager "clock" "process_natural_language"
    [("query", "clock me in")] none (some 1) 1700000000 12 cleanDB exClockAgent rfl

theorem find?_override_map (l : List AgentAction) (aid : Nat) (u : Nat) (r : String) :
    (l.map (fun x => if x.id == aid then
        { x with overridden := true, overriddenById := some u, overrideReason := some r }
      else x)).find? (fun x => x.id == aid)
      = (l.find? (fun x => x.id == aid)).map
          (fun x => { x with overridden := true, overriddenById := some u,
                             overrideReason := some r }) := by
  induction l with
  | nil => rfl
  | cons x xs ih =>
      by_cases hx : x.id == aid
      · simp [List.find?, hx]
      · simp only [List.map, List.find?, hx, if_neg, Bool.false_eq_true, not_false_eq_true,
          if_false]
        simpa [hx] using ih

/-- C3: on an existing, not-yet-overridden ActionLog entry a first override
call succeeds and flips `overridden` to true; a second call on the same id
then raises HTTP 400 "Action already overridden" and leaves the store exactly
as the first call left it — the transition is one-way and happens at most
once. -/
theorem override_transition_one_way {CA : Type} (db : AppDB) (aid : Nat)
    (r1 r2 : String) (c1 c2 : CA) (u1 u2 : Nat) (a : AgentAction)
    (hfind : db.agentActions.find? (fun x => x.id == aid) = some a)
    (hnot : a.overridden = false) :
    (override_agent_action db aid r1 c1 u1).1
        = OverrideResult.ok "Action overridden successfully" aid ∧
    (override_agent_action db aid r1 c1 u1).2.agentActions.find? (fun x => x.id == aid)
        = some { a with overridden := true, overriddenById := some u1,
                        overrideReason := some r1 } ∧
    override_agent_action (override_agent_action db aid r1 c1 u1).2 aid r2 c2 u2
        = (OverrideResult.httpError 400 "Action already overridden",
           (override_agent_action db aid r1 c1 u1).2) := by
  have hstep : (override_agent_action db aid r1 c1 u1).2.agentActions.find?
      (fun x => x.id == aid)
      = some { a with overridden := true, overriddenById := some u1,
                      overrideReason := some r1 } := by
    simp only [override_agent_action, hfind, hnot, if_false, Bool.false_eq_true]
    rw [find?_override_map, hfind]
    rfl
  refine ⟨?_, hstep, ?_⟩
  · simp [override_agent_action, hfind, hnot]
  · set db2 := (override_agent_action db aid r1 c1 u1).2 with hdb2
    show override_agent_action db2 aid r2 c2 u2
      = (OverrideResult.httpError 400 "Action already overridden", db2)
    simp only [override_agent_action, hstep]
    simp

/-- C3 witness: overriding the fixture audit row once succeeds and marks it;
a second override of the same id fails with the 400 detail. -/
theorem override_transition_one_way_inst :
    (override_agent_action auditDB 1 "wrong tool used" (0 : Nat) 2).1
        = OverrideResult.ok "Action overridden successfully" 1 ∧
    (override_agent_action auditDB 1 "wrong tool used" (0 : Nat) 2).2.agentActions.find?
        (fun x => x.id == 1) = some exActionOverridden ∧
    override_agent_action
        (override_agent_action auditDB 1 "wrong tool used" (0 : Nat) 2).2 1
        "second attempt" (0 : Nat) 2
        = (OverrideResult.httpError 400 "Action already overridden",
           (override_agent_action auditDB 1 "wrong tool used" (0 : Nat) 2).2) :=
  override_transition_one_way auditDB 1 "wrong tool used" "second attempt"
    (0 : Nat) (0 : Nat) 2 2 exAction (by decide) (by decide)

/-- C4 (amended): a successful override sets `overridden`, records the
overriding actor and the reason, performs no write against any domain table —
and the caller-supplied corrective-action payload is accepted but discarded,
not recorded: the outcome is independent of it. -/
theorem override_marks_without_domain_write {CA : Type} (db : AppDB) (aid : Nat)
    (reason : String) (c c' : CA) (uid : Nat) (a : AgentAction)
    (hfind : db.agentActions.find? (fun x => x.id == aid) = some a)
    (hnot : a.overridden = false) :
    (override_agent_action db aid reason c uid).2.agentActions.find? (fun x => x.id == aid)
        = some { a with overridden := true, overriddenById := some uid,
                        overrideReason := some reason } ∧
    (override_agent_action db aid reason c uid).2.users = db.users ∧
    (override_agent_action db aid reason c uid).2.clockRecords = db.clockRecords ∧
    (override_agent_action db aid reason c uid).2.tasks = db.tasks ∧
    (override_agent_action db aid reason c uid).2.taskComments = db.taskComments ∧
    (override_agent_action db aid reason c uid).2.reports = db.reports ∧
    override_agent_action db aid reason c uid = override_agent_action db aid reason c' uid := by
  refine ⟨?_, ?_, ?_, ?_, ?_, ?_, rfl⟩
  · simp only [override_agent_action, hfind, hnot, if_false, Bool.false_eq_true]
    rw [find?_override_map, hfind]
    rfl
  all_goals simp [override_agent_action, hfind, hnot]

/-- C4 witness: the amended behaviour at the fixture store. -/
theorem override_marks_without_domain_write_inst :
    (override_agent_action auditDB 1 "wrong tool used" (7 : Nat) 2).2.agentActions.find?
        (fun x => x.id == 1) = some exActionOverridden ∧
    (override_agent_action auditDB 1 "wrong tool used" (7 : Nat) 2).2.users = auditDB.users ∧
    (override_agent_action auditDB 1 "wrong tool used" (7 : Nat) 2).2.clockRecords
        = auditDB.clockRecords ∧
    (override_agent_action auditDB 1 "wrong tool used" (7 : Nat) 2).2.tasks = auditDB.tasks ∧
    (override_agent_action auditDB 1 "wrong tool used" (7 : Nat) 2).2.taskComments
        = auditDB.taskComments ∧
    (override_agent_action auditDB 1 "wrong tool used" (7 : Nat) 2).2.reports
        = auditDB.reports ∧
    override_agent_action auditDB 1 "wrong tool used" (7 : Nat) 2
        = override_agent_action auditDB 1 "wrong tool used" (8 : Nat) 2 :=
  override_marks_without_domain_write auditDB 1 "wrong tool used" (7 : Nat) (8 : Nat) 2
    exAction (by decide) (by decide)

theorem strAppendEmpty (s : String) : s ++ "" = s := by
  cases s with
  | mk data =>
      show String.mk (data ++ []) = String.mk data
      rw [List.append_nil]

/-- C6 counterexample: an assignee holding ten tasks in REVIEW — a
non-terminal status — receives a fresh task; the assignment succeeds but the
returned text carries no workload warning, because the code counts only TODO
and IN_PROGRESS tasks. This refutes "warning iff at least 10 tasks in
non-terminal status". -/
theorem assign_warning_ignores_review_cex :
    10 ≤ specNonTerminalCount tenReviewDB 1 ∧
    ¬ strContains (assign_task_tool tenReviewDB 1700000000 100 1).1 "Warning" := by
  decide

/-- C6 (amended): when both the task and the assignee exist the assignment
succeeds, and the returned text carries the workload warning if and only if
the assignee already holds at least 10 tasks whose status is TODO or
IN_PROGRESS (so nine such tasks draw no warning); tasks in REVIEW are not
counted. The hypothesis `hclean` pins the formalisation of "contains a
warning": the base response — built from stored titles and names — must not
itself spell the warning marker. -/
theorem assign_task_workload_warning (db : AppDB) (now : Int) (tid aid : Nat)
    (t : Task) (u : User)
    (ht : db.tasks.find? (fun x => x.id == tid) = some t)
    (hu : db.users.find? (fun x => x.id == aid) = some u)
    (hclean : ¬ strContains (assignResponseCore db t u) "Warning") :
    assignUpdate now aid t ∈ (assign_task_tool db now tid aid).2.tasks ∧
    (assignUpdate now aid t).assigneeId = some aid ∧
    (assign_task_tool db now tid aid).2.tasks.length = db.tasks.length ∧
    (strContains (assign_task_tool db now tid aid).1 "Warning"
        ↔ 10 ≤ activeTaskCount db aid) := by
  have htid : (t.id == tid) = true := by
    have h := List.find?_some (p := fun x : Task => x.id == tid) ht
    simpa using h
  have hmem : t ∈ db.tasks := List.mem_of_find?_eq_some ht
  have happ : assign_task_tool db now tid aid
      = (assignResponseCore db t u ++
          (if 10 ≤ activeTaskCount db aid then
            workloadWarning u.fullName (activeTaskCount db aid) else ""),
         { db with tasks := db.tasks.map (fun x =>
             if x.id == tid then assignUpdate now aid x else x) }) := by
    simp only [assign_task_tool, ht, hu]
  refine ⟨?_, rfl, ?_, ?_⟩
  · rw [happ]
    exact List.mem_map.mpr ⟨t, hmem, by rw [htid]; simp⟩
  · rw [happ]
    simp [List.length_map]
  · rw [happ]
    by_cases h10 : 10 ≤ activeTaskCount db aid
    · simp only [if_pos h10]
      constructor
      · intro _
        exact h10
      · intro _
        apply strContains_append_right
        simp only [workloadWarning]
        apply strContains_append_left
        apply strContains_append_left
        apply strContains_append_left
        apply strContains_append_left
        decide
    · simp only [if_neg h10, strAppendEmpty]
      constructor
      · intro hc
        exact absurd hc hclean
      · intro h10'
        exact absurd h10' h10

/-- C6 witness: the amended behaviour at a store where the assignee already
holds nine active (TODO) tasks — the assignment goes through and the
warning-iff condition evaluates on the count of nine. -/
theorem assign_task_workload_warning_inst :
    assignUpdate 1700000000 1 (mkTask 100 .todo none)
        ∈ (assign_task_tool nineActiveDB 1700000000 100 1).2.tasks ∧
    (assignUpdate 1700000000 1 (mkTask 100 .todo none)).assigneeId = some 1 ∧
    (assign_task_tool nineActiveDB 1700000000 100 1).2.tasks.length
        = nineActiveDB.tasks.length ∧
    (strContains (assign_task_tool nineActiveDB 1700000000 100 1).1 "Warning"
        ↔ 10 ≤ activeTaskCount nineActiveDB 1) :=
  assign_task_workload_warning nineActiveDB 1700000000 100 1 (mkTask 100 .todo none)
    aliceUser (by decide) (by decide) (by decide)

/-- C7: clocking in an existing user fails with an error string and writes
nothing when an open record exists, and otherwise appends exactly one new open
record stamped with the current time, after which a second clock-in for the
same user (before any clock-out) fails with the conflict message. -/
theorem clock_in_conflict_or_create (db : AppDB) (now now2 : Int) (uid : Nat)
    (loc loc2 notes notes2 : Option String) (u : User)
    (hu : db.users.find? (fun x => x.id == uid) = some u) :
    (∀ r, openClockRecord db uid = some r →
        clock_in_tool db now uid loc notes
          = ("Error: " ++ u.fullName ++ " is already clocked in since " ++
              pyDatetimeStr r.clockIn, db)) ∧
    (openClockRecord db uid = none →
      ∃ newRec : ClockRecord,
        (clock_in_tool db now uid loc notes).2.clockRecords
            = db.clockRecords ++ [newRec] ∧
        newRec.userId = uid ∧ newRec.clockIn = now ∧ newRec.clockOut = none ∧
        clock_in_tool (clock_in_tool db now uid loc notes).2 now2 uid loc2 notes2
          = ("Error: " ++ u.fullName ++ " is already clocked in since " ++
              pyDatetimeStr now,
             (clock_in_tool db now uid loc notes).2)) := by
  constructor
  · intro r hr
    simp only [clock_in_tool, hu, hr]
  · intro hnone
    have happ : clock_in_tool db now uid loc notes
        = ("Successfully clocked in " ++ u.fullName ++ " at " ++ strftimeIMp now,
           { db with clockRecords := db.clockRecords ++
               [{ id := nextId (db.clockRecords.map (fun r => r.id)), userId := uid,
                  clockIn := now, clockOut := none, status := .clockedIn,
                  location := loc, notes := notes, totalHours := none, date := now }] }) := by
      simp only [clock_in_tool, hu, hnone]
    refine ⟨_, by rw [happ], rfl, rfl, rfl, ?_⟩
    have hopen2 : openClockRecord (clock_in_tool db now uid loc notes).2 uid
        = some { id := nextId (db.clockRecords.map (fun r => r.id)), userId := uid,
                 clockIn := now, clockOut := none, status := .clockedIn,
                 location := loc, notes := notes, totalHours := none, date := now } := by
      rw [happ]
      show (db.clockRecords ++ [_]).find? _ = _
      rw [List.find?_append]
      have h0 : db.clockRecords.find?
          (fun r => r.userId == uid && r.clockOut == none) = none := hnone
      rw [h0]
      simp
    have hu2 : (clock_in_tool db now uid loc notes).2.users.find?
        (fun x => x.id == uid) = some u := by
      rw [happ]
      exact hu
    set db2 := (clock_in_tool db now uid loc notes).2 with hdb2
    show clock_in_tool db2 now2 uid loc2 notes2
      = ("Error: " ++ u.fullName ++ " is already clocked in since " ++
          pyDatetimeStr now, db2)
    simp only [clock_in_tool, hu2, hopen2]

/-- C7 witness: on a store with no records, one clock-in appends one open
record and an immediate second clock-in reports the conflict. -/
theorem clock_in_conflict_or_create_inst :
    (∀ r, openClockRecord cleanDB 1 = some r →
        clock_in_tool cleanDB 1700000000 1 none none
          = ("Error: " ++ aliceUser.fullName ++ " is already clocked in since " ++
              pyDatetimeStr r.clockIn, cleanDB)) ∧
    (openClockRecord cleanDB 1 = none →
      ∃ newRec : ClockRecord,
        (clock_in_tool cleanDB 1700000000 1 none none).2.clockRecords
            = cleanDB.clockRecords ++ [newRec] ∧
        newRec.userId = 1 ∧ newRec.clockIn = 1700000000 ∧ newRec.clockOut = none ∧
        clock_in_tool (clock_in_tool cleanDB 1700000000 1 none none).2 1700000060 1 none none
          = ("Error: " ++ aliceUser.fullName ++ " is already clocked in since " ++
              pyDatetimeStr 1700000000,
             (clock_in_tool cleanDB 1700000000 1 none none).2)) :=
  clock_in_conflict_or_create cleanDB 1700000000 1700000060 1 none none none none
    aliceUser (by decide)

/-- C8: clocking out an existing user fails with an error string and writes
nothing when no open record exists; otherwise the open record is closed in
place (the store keeps its size) with the clock-out time and with worked hours
`round((clock_out - clock_in) / 3600, 2)`; a span of exactly eight hours
stores 8.0. -/
theorem clock_out_closes_and_rounds (db : AppDB) (now : Int) (uid : Nat)
    (notes : Option String) (u : User)
    (hu : db.users.find? (fun x => x.id == uid) = some u) :
    (openClockRecord db uid = none →
        clock_out_tool db now uid notes
          = ("Error: " ++ u.fullName ++ " is not currently clocked in", db)) ∧
    (∀ r, openClockRecord db uid = some r →
        closeClockRecord now notes r ∈ (clock_out_tool db now uid notes).2.clockRecords ∧
        (clock_out_tool db now uid notes).2.clockRecords.length
            = db.clockRecords.length ∧
        (closeClockRecord now notes r).clockOut = some now ∧
        (closeClockRecord now notes r).totalHours
            = some (round2 (((now - r.clockIn : Int) : ℚ) / 3600)) ∧
        (now - r.clockIn = 28800 →
            (closeClockRecord now notes r).totalHours = some 8)) := by
  constructor
  · intro hnone
    simp only [clock_out_tool, hu, hnone]
  · intro r hr
    have hmem : r ∈ db.clockRecords := List.mem_of_find?_eq_some hr
    have happ : clock_out_tool db now uid notes
        = ("Successfully clocked out " ++ u.fullName ++ " at " ++ strftimeIMp now ++
            ". Total hours worked: " ++
            pyFloatRepr ((closeClockRecord now notes r).totalHours.getD 0),
           { db with clockRecords := db.clockRecords.map (fun x =>
               if x.id == r.id then closeClockRecord now notes x else x) }) := by
      simp only [clock_out_tool, hu, hr]
    refine ⟨?_, ?_, rfl, rfl, ?_⟩
    · rw [happ]
      exact List.mem_map.mpr ⟨r, hmem, by simp⟩
    · rw [happ]
      simp [List.length_map]
    · intro h8
      show some (round2 (((now - r.clockIn : Int) : ℚ) / 3600)) = some 8
      rw [h8]
      norm_num [round2, roundHalfEven]

/-- C8 witness: closing a shift opened exactly eight hours earlier stores 8.0
worked hours. -/
theorem clock_out_closes_and_rounds_inst :
    (openClockRecord openShiftDB 1 = none →
        clock_out_tool openShiftDB 1700028800 1 none
          = ("Error: " ++ aliceUser.fullName ++ " is not currently clocked in",
             openShiftDB)) ∧
    (∀ r, openClockRecord openShiftDB 1 = some r →
        closeClockRecord 1700028800 none r
            ∈ (clock_out_tool openShiftDB 1700028800 1 none).2.clockRecords ∧
        (clock_out_tool openShiftDB 1700028800 1 none).2.clockRecords.length
            = openShiftDB.clockRecords.length ∧
        (closeClockRecord 1700028800 none r).clockOut = some 1700028800 ∧
        (closeClockRecord 1700028800 none r).totalHours
            = some (round2 (((1700028800 - r.clockIn : Int) : ℚ) / 3600)) ∧
        (1700028800 - r.clockIn = 28800 →
            (closeClockRecord 1700028800 none r).totalHours = some 8)) :=
  clock_out_closes_and_rounds openShiftDB 1700028800 1 none aliceUser (by decide)

theorem buildAttendance_total (users : List User) (rs : List ClockRecord) :
    ∀ (acc : List (Nat × UserAttendance)) (tot : ℚ),
    (∀ r ∈ rs, (users.find? (fun u => u.id == r.userId)).isSome = true) →
    ∃ data, buildAttendance users rs acc tot
      = Except.ok (data, tot + (rs.map attendanceHoursVal).sum) := by
  induction rs with
  | nil =>
      intro acc tot _
      exact ⟨acc, by simp [buildAttendance]⟩
  | cons r rs ih =>
      intro acc tot h
      have hr : (users.find? (fun u => u.id == r.userId)).isSome = true :=
        h r (by simp)
      obtain ⟨u, hu⟩ := Option.isSome_iff_exists.mp hr
      obtain ⟨data, hd⟩ := ih (accountRecord acc u r) (tot + attendanceHoursVal r)
        (fun x hx => h x (by simp [hx]))
      refine ⟨data, ?_⟩
      rw [show buildAttendance users (r :: rs) acc tot
          = buildAttendance users rs (accountRecord acc u r) (tot + attendanceHoursVal r)
        from by simp [buildAttendance, hu]]
      rw [hd, List.map_cons, List.sum_cons, ← add_assoc]

theorem attendanceSum_truthy (rs : List ClockRecord) :
    (rs.map attendanceHoursVal).sum = (rs.map (fun r => r.totalHours.getD 0)).sum := by
  induction rs with
  | nil => rfl
  | cons r rs ih =>
      simp only [List.map_cons, List.sum_cons, ih]
      congr 1
      cases h : r.totalHours with
      | none => simp [attendanceHoursVal, truthyOptQ, h]
      | some q =>
          by_cases hq : q = 0
          · simp [attendanceHoursVal, truthyOptQ, h, hq]
          · simp [attendanceHoursVal, truthyOptQ, h, hq]

/-- C9: an attendance-report call whose date bounds parse and whose date-range
query matches at least one record appends exactly one report row whose
`date_from` and `date_to` are the parsed bounds and whose stored total-hours
figure equals the sum of `total_hours` over the matched records (a `NULL`
`total_hours` contributing nothing); the query is inclusive of the end date
(its upper bound is `end + 1 day`). Stated for calls without the optional
user/department filters, as in the claim. -/
theorem attendance_report_round_trip (db : AppDB) (now : Int)
    (startDate endDate : String) (s e : Int)
    (hs : parseDate startDate = some s)
    (he : parseDate endDate = some e)
    (hne : attendanceMatched db s e ≠ [])
    (husers : ∀ r ∈ attendanceMatched db s e,
        (db.users.find? (fun u => u.id == r.userId)).isSome = true) :
    ∃ rep : Report,
      (generate_attendance_report_tool db now startDate endDate none none).2.reports
        = db.reports ++ [rep] ∧
      rep.dateFrom = s ∧ rep.dateTo = e ∧ rep.type = "attendance" ∧
      rep.content.totalHours
        = ((attendanceMatched db s e).map (fun r => r.totalHours.getD 0)).sum := by
  obtain ⟨data, hbuild⟩ :=
    buildAttendance_total db.users (attendanceMatched db s e) [] 0 husers
  have hne' : (attendanceMatched db s e).isEmpty = false := by
    cases hm : attendanceMatched db s e with
    | nil => exact absurd hm hne
    | cons a l => rfl
  have happ : generate_attendance_report_tool db now startDate endDate none none
      = (attendanceReportText startDate endDate data
           (0 + ((attendanceMatched db s e).map attendanceHoursVal).sum),
         { db with reports := db.reports ++
             [mkAttendanceReport db now startDate endDate s e data
               (0 + ((attendanceMatched db s e).map attendanceHoursVal).sum)] }) := by
    simp only [generate_attendance_report_tool, hs, he, truthyOptId, truthyOptStr,
      Bool.false_eq_true, if_false, hne', hbuild]
  refine ⟨_, by rw [happ], rfl, rfl, rfl, ?_⟩
  show 0 + ((attendanceMatched db s e).map attendanceHoursVal).sum
    = ((attendanceMatched db s e).map (fun r => r.totalHours.getD 0)).sum
  rw [zero_add, attendanceSum_truthy]

/-- C9 witness: the bounds 2024-01-01 .. 2024-01-07 round-trip through the
fixture store with its one eight-hour record. -/
theorem attendance_report_round_trip_inst :
    ∃ rep : Report,
      (generate_attendance_report_tool reportDB 1704500000 "2024-01-01" "2024-01-07"
          none none).2.reports
        = reportDB.reports ++ [rep] ∧
      rep.dateFrom = 1704067200 ∧ rep.dateTo = 1704585600 ∧ rep.type = "attendance" ∧
      rep.content.totalHours
        = ((attendanceMatched reportDB 1704067200 1704585600).map
            (fun r => r.totalHours.getD 0)).sum :=
  attendance_report_round_trip reportDB 1704500000 "2024-01-01" "2024-01-07"
    1704067200 1704585600 (by decide) (by decide) (by decide) (by decide)

end OpsForge
